import Mathlib

/-!
Verification of the Localized Narratives data loader
(`localized_narratives.py`) against its specification.

The Python module is embedded shallowly:

* `LocalizedNarrative`, `TimedUtterance`, `TimedPoint` mirror the
  NamedTuple record types.
* The module-level constants (`_ROOT_URL`, `_ANNOTATIONS_ROOT_URL`,
  `_RECORDINGS_ROOT_URL`, `_ANNOTATION_FILES`) are copied verbatim.
* `LocalizedNarrative.voice_recording_url` is embedded together with a
  faithful executable model (`pySearch`) of the CPython backtracking
  regex search for the fixed pattern used in the source,
  r-string (\w+)/\w+_([0-9]+)_[0-9]+\. — leftmost match, greedy
  quantifiers with backtracking.  Word characters are modelled as ASCII
  letters, digits and underscore (all inputs of interest are ASCII).
* `DataLoader.download_annotations` and `DataLoader.load_annotations`
  are embedded with the external world made explicit: the filesystem is
  a function from path to file contents, a file's contents is the list
  of records its lines decode to (the spec treats the JSON line decoder
  as an external collaborator), and every observable side effect is
  recorded in an explicit `TraceEvent` list, in program order.
-/

/-- ASCII model of a Python regex word character, for the pattern
r-string \w (letters, digits, underscore). -/
def isWordChar (c : Char) : Bool :=
  c.isAlpha || c.isDigit || c == '_'

/-- Split a character list into its maximal leading run of characters
satisfying p, and the remainder. -/
def takeRun (p : Char → Bool) : List Char → List Char × List Char
  | [] => ([], [])
  | c :: cs =>
    if p c then
      let r := takeRun p cs
      (c :: r.1, r.2)
    else ([], c :: cs)

/-- All ways a greedy plus-quantified character class p can match a
prefix of s, longest first (CPython backtracking order): each candidate
is (consumed, rest), with consumed nonempty. -/
def greedySplits (p : Char → Bool) (s : List Char) : List (List Char × List Char) :=
  let r := takeRun p s
  (List.range r.1.length).map fun j =>
    (r.1.take (r.1.length - j), r.1.drop (r.1.length - j) ++ r.2)

/-- Attempt to match the source's fixed pattern
r-string (\w+)/\w+_([0-9]+)_[0-9]+\. anchored at the start of s,
trying alternatives in CPython backtracking order (each greedy
quantifier longest first, innermost backtracked first).  Returns the
two capture groups on success. -/
def pyMatchAt (s : List Char) : Option (List Char × List Char) :=
  (greedySplits isWordChar s).findSome? fun g1r =>
    match g1r.2 with
    | '/' :: r2 =>
      (greedySplits isWordChar r2).findSome? fun wr =>
        match wr.2 with
        | '_' :: r4 =>
          (greedySplits Char.isDigit r4).findSome? fun g2r =>
            match g2r.2 with
            | '_' :: r6 =>
              (greedySplits Char.isDigit r6).findSome? fun dr =>
                match dr.2 with
                | '.' :: _ => some (g1r.1, g2r.1)
                | _ => none
            | _ => none
        | _ => none
    | _ => none

/-- Model of re.search for the fixed pattern: try every start
position left to right, return the groups of the first match. -/
def pySearch : List Char → Option (List Char × List Char)
  | [] => none
  | c :: cs =>
    match pyMatchAt (c :: cs) with
    | some g => some g
    | none => pySearch cs

/-- Model of str.zfill for the digit-only strings this module applies
it to: left-pad with zeros up to the requested width.  (Python's sign
handling is irrelevant here: the argument is always a digit capture.) -/
def zfill (s : String) (width : Nat) : String :=
  if s.length < width then String.mk (List.replicate (width - s.length) '0') ++ s
  else s

/-- Model of the Python substring test (needle in hay). -/
def containsSub (needle : List Char) : List Char → Bool
  | [] => needle.isPrefixOf []
  | c :: cs => needle.isPrefixOf (c :: cs) || containsSub needle cs

/-- TimedPoint NamedTuple of the source. -/
structure TimedPoint where
  x : Float
  y : Float
  t : Float

/-- TimedUtterance NamedTuple of the source. -/
structure TimedUtterance where
  utterance : String
  start_time : Float
  end_time : Float

/-- LocalizedNarrative NamedTuple of the source. -/
structure LocalizedNarrative where
  dataset_id : String
  image_id : String
  annotator_id : Int
  caption : String
  timed_caption : List TimedUtterance
  traces : List (List TimedPoint)
  voice_recording : String

def _ROOT_URL : String := "https://storage.googleapis.com/localized-narratives"

def _ANNOTATIONS_ROOT_URL : String := _ROOT_URL ++ "/annotations"

def _RECORDINGS_ROOT_URL : String := _ROOT_URL ++ "/voice-recordings"

/-- The family test of voice_recording_url:
Python expression ('Flic' in dataset_id or 'ADE' in dataset_id). -/
def hasRewriteMarker (d : String) : Bool :=
  containsSub "Flic".data d.data || containsSub "ADE".data d.data

/-- Failure of voice_recording_url: in CPython, re.search returning
None makes the .groups() call raise (the stored path did not match the
pattern); the spec names this error MalformedRecordingPath. -/
inductive VRError where
  | malformedRecordingPath
deriving DecidableEq, Repr

/-- Embedding of LocalizedNarrative.voice_recording_url.  Total: the
CPython exception on a non-matching path becomes an error value. -/
def voice_recording_url (r : LocalizedNarrative) : Except VRError String :=
  if hasRewriteMarker r.dataset_id then
    match pySearch r.voice_recording.data with
    | none => .error .malformedRecordingPath
    | some (g1, g2) =>
      let split_id := String.mk g1
      let image_id := zfill (String.mk g2) 16
      let voice_recording :=
        split_id ++ "/" ++ split_id ++ "_" ++ image_id ++ "_" ++
          toString r.annotator_id ++ ".ogg"
      .ok (_RECORDINGS_ROOT_URL ++ "/" ++ voice_recording)
  else
    .ok (_RECORDINGS_ROOT_URL ++ "/" ++ r.voice_recording)

/-- Model of the textual representation failing: in CPython,
LocalizedNarrative.__repr__ raises IndexError when it indexes
timed_caption[0] or traces[0][0] on an empty list. -/
inductive ReprError where
  | indexError
deriving DecidableEq, Repr

/-- The single-quote character, used by Python's NamedTuple str() to
quote string fields. -/
def pyQuote : String := (Char.ofNat 39).toString

/-- str() of a TimedUtterance NamedTuple (Python float formatting is
approximated by Lean's; no claim depends on it). -/
def timedUtteranceStr (u : TimedUtterance) : String :=
  "TimedUtterance(utterance=" ++ pyQuote ++ u.utterance ++ pyQuote ++
    ", start_time=" ++ toString u.start_time ++
    ", end_time=" ++ toString u.end_time ++ ")"

/-- str() of a TimedPoint NamedTuple (same caveat on float formatting). -/
def timedPointStr (p : TimedPoint) : String :=
  "TimedPoint(x=" ++ toString p.x ++ ", y=" ++ toString p.y ++
    ", t=" ++ toString p.t ++ ")"

/-- Embedding of LocalizedNarrative.__repr__.  Total: the IndexError
raised by timed_caption[0] / traces[0][0] on empty data becomes an
error value; the list indexings are evaluated in source order. -/
def lnRepr (r : LocalizedNarrative) : Except ReprError String :=
  let truncated_caption :=
    if r.caption.length > 63 then r.caption.take 60 ++ "..." else r.caption
  match r.timed_caption with
  | [] => .error .indexError
  | u :: _ =>
    match r.traces with
    | [] => .error .indexError
    | tr :: _ =>
      match tr with
      | [] => .error .indexError
      | p :: _ =>
        .ok ("\x7b\n dataset_id: " ++ r.dataset_id ++
             ",\n image_id: " ++ r.image_id ++
             ",\n annotator_id: " ++ toString r.annotator_id ++
             ",\n caption: " ++ truncated_caption ++
             ",\n timed_caption: [" ++ timedUtteranceStr u ++
             ", ...],\n traces: [[" ++ timedPointStr p ++
             ", ...], ...],\n voice_recording: " ++ r.voice_recording ++
             "\n\x7d")

/-- The registry _ANNOTATION_FILES, with the Python format expressions
written out (the dict maps each dataset-and-split key to its ordered
shard list). -/
def _ANNOTATION_FILES : List (String × List String) := [
  ("open_images_train", [
    "open_images_train_v6_localized_narratives-00000-of-00010.jsonl",
    "open_images_train_v6_localized_narratives-00001-of-00010.jsonl",
    "open_images_train_v6_localized_narratives-00002-of-00010.jsonl",
    "open_images_train_v6_localized_narratives-00003-of-00010.jsonl",
    "open_images_train_v6_localized_narratives-00004-of-00010.jsonl",
    "open_images_train_v6_localized_narratives-00005-of-00010.jsonl",
    "open_images_train_v6_localized_narratives-00006-of-00010.jsonl",
    "open_images_train_v6_localized_narratives-00007-of-00010.jsonl",
    "open_images_train_v6_localized_narratives-00008-of-00010.jsonl",
    "open_images_train_v6_localized_narratives-00009-of-00010.jsonl"]),
  ("open_images_val", ["open_images_validation_localized_narratives.jsonl"]),
  ("open_images_test", ["open_images_test_localized_narratives.jsonl"]),
  ("coco_train", [
    "coco_train_localized_narratives-00000-of-00004.jsonl",
    "coco_train_localized_narratives-00001-of-00004.jsonl",
    "coco_train_localized_narratives-00002-of-00004.jsonl",
    "coco_train_localized_narratives-00003-of-00004.jsonl"]),
  ("coco_val", ["coco_val_localized_narratives.jsonl"]),
  ("flickr30k_train", ["flickr30k_train_localized_narratives.jsonl"]),
  ("flickr30k_val", ["flickr30k_val_localized_narratives.jsonl"]),
  ("flickr30k_test", ["flickr30k_test_localized_narratives.jsonl"]),
  ("ade20k_train", ["ade20k_train_localized_narratives.jsonl"]),
  ("ade20k_val", ["ade20k_validation_localized_narratives.jsonl"])]

/-- Python dict lookup on _ANNOTATION_FILES. -/
def lookupRegistry (k : String) : Option (List String) :=
  (_ANNOTATION_FILES.find? fun e => e.1 == k).map fun e => e.2

/-- The error taxonomy of the loader: the source raises ValueError for
an unknown dataset_and_split key; the spec names it UnknownDatasetKind. -/
inductive LoaderError where
  | unknownDatasetKind
deriving DecidableEq, Repr

/-- Embedding of the module-level _expected_files: the file list of a
known key, the UnknownDatasetKind error otherwise. -/
def _expected_files (dataset_and_split : String) : Except LoaderError (List String) :=
  match lookupRegistry dataset_and_split with
  | some files => .ok files
  | none => .error .unknownDatasetKind

/-- Observable side effects of the loader, in program order:
os.makedirs, os.path.exists, wget.download, open. -/
inductive TraceEvent where
  | makedirs (dir : String)
  | existsCheck (path : String)
  | download (url : String) (dest : String)
  | openFile (path : String)
deriving DecidableEq, Repr

/-- Embedding of DataLoader._local_file (os.path.join of the local
root directory and the filename). -/
def _local_file (root filename : String) : String :=
  root ++ "/" ++ filename

/-- Embedding of DataLoader._download_one_file over an explicit
filesystem presence predicate: checks existence; when absent,
downloads from the annotations root URL, making the path present. -/
def _download_one_file (root : String) (present : String → Bool) (filename : String) :
    List TraceEvent × (String → Bool) :=
  let path := _local_file root filename
  if present path then
    ([TraceEvent.existsCheck path], present)
  else
    ([TraceEvent.existsCheck path,
      TraceEvent.download (_ANNOTATIONS_ROOT_URL ++ "/" ++ filename) path],
     fun q => if q = path then true else present q)

/-- The download loop of download_annotations: one file at a time, in
registry order, threading the filesystem state. -/
def downloadFiles (root : String) : (String → Bool) → List String → List TraceEvent × (String → Bool)
  | present, [] => ([], present)
  | present, filename :: rest =>
    let r1 := _download_one_file root present filename
    let r2 := downloadFiles root r1.2 rest
    (r1.1 ++ r2.1, r2.2)

/-- Result of download_annotations: the event trace, the filesystem
presence predicate after the call, and the error if one was raised. -/
structure DownloadResult where
  events : List TraceEvent
  present : String → Bool
  err : Option LoaderError

/-- Embedding of DataLoader.download_annotations.  The source calls
os.makedirs on the local root before iterating _expected_files, so the
makedirs event precedes the unknown-key error. -/
def download_annotations (root : String) (present : String → Bool) (key : String) :
    DownloadResult :=
  match lookupRegistry key with
  | none => ⟨[TraceEvent.makedirs root], present, some .unknownDatasetKind⟩
  | some files =>
    let r := downloadFiles root present files
    ⟨TraceEvent.makedirs root :: r.1, r.2, none⟩

/-- Result of the inner line loop of load_annotations on one open
file: the records yielded, the updated num_loaded counter, whether the
loop hit max_num_annotations and returned, and the lines of the file
left unread in that case. -/
structure ReadResult where
  emitted : List LocalizedNarrative
  count : Int
  stopped : Bool
  unread : List LocalizedNarrative

/-- The inner loop of load_annotations: yield each line's record, then
increment num_loaded and return when it equals max_num_annotations
(an equality test, made after the yield, exactly as in the source). -/
def readLines (maxN : Int) : Int → List LocalizedNarrative → ReadResult
  | count, [] => ⟨[], count, false, []⟩
  | count, l :: rest =>
    if count + 1 = maxN then ⟨[l], count + 1, true, rest⟩
    else
      let r := readLines maxN (count + 1) rest
      ⟨l :: r.emitted, r.count, r.stopped, r.unread⟩

/-- Result of load_annotations over a known key: the event trace, the
records yielded, and the unread remainder (the rest of the file the
loop stopped in, followed by the contents of the present files it
never reached). -/
structure LoadResult where
  events : List TraceEvent
  emitted : List LocalizedNarrative
  unread : List (List LocalizedNarrative)

/-- The outer loop of load_annotations, fused with _find_files exactly
as the generators interleave in the source: for each registry filename
in order, check existence (absent files are skipped silently); open a
present file and run the line loop; stop everything when it stops. -/
def loadLoop (root : String) (fs : String → Option (List LocalizedNarrative))
    (maxN : Int) : Int → List String → LoadResult
  | _, [] => ⟨[], [], []⟩
  | count, filename :: rest =>
    let path := _local_file root filename
    match fs path with
    | none =>
      let r := loadLoop root fs maxN count rest
      ⟨TraceEvent.existsCheck path :: r.events, r.emitted, r.unread⟩
    | some lines =>
      let rl := readLines maxN count lines
      if rl.stopped then
        ⟨[TraceEvent.existsCheck path, TraceEvent.openFile path],
         rl.emitted,
         rl.unread :: rest.filterMap fun fn2 => fs (_local_file root fn2)⟩
      else
        let r := loadLoop root fs maxN rl.count rest
        ⟨TraceEvent.existsCheck path :: TraceEvent.openFile path :: r.events,
         rl.emitted ++ r.emitted, r.unread⟩

/-- The default of max_num_annotations: int(1e30), i.e. the integer
value of the IEEE-754 double nearest to 10^30. -/
def defaultMaxNumAnnotations : Int := 1000000000000000019884624838656

/-- Embedding of DataLoader.load_annotations.  Both load_annotations
and _find_files are generators, so for an unknown key the
UnknownDatasetKind error surfaces on first iteration, before any
filesystem access: the error branch carries no trace events. -/
def load_annotations (root : String) (fs : String → Option (List LocalizedNarrative))
    (key : String) (maxN : Int) : Except LoaderError LoadResult :=
  match lookupRegistry key with
  | none => .error .unknownDatasetKind
  | some files => .ok (loadLoop root fs maxN 0 files)

/-- The registry files of a key that are present in the filesystem, in
registry order, with their contents. -/
def presentFiles (root : String) (fs : String → Option (List LocalizedNarrative))
    (files : List String) : List (List LocalizedNarrative) :=
  files.filterMap fun fn => fs (_local_file root fn)

/-- The event trace of a full scan that never hits the limit: every
registry file is existence-checked in order, and each present one is
opened. -/
def fullScanEvents (root : String) (fs : String → Option (List LocalizedNarrative)) :
    List String → List TraceEvent
  | [] => []
  | filename :: rest =>
    let path := _local_file root filename
    match fs path with
    | none => TraceEvent.existsCheck path :: fullScanEvents root fs rest
    | some _ =>
      TraceEvent.existsCheck path :: TraceEvent.openFile path ::
        fullScanEvents root fs rest

/-- A concrete record used to exercise the theorems (default family:
no rewrite marker in dataset_id). -/
def sampleRecA : LocalizedNarrative :=
  ⟨"coco_val", "137576", 93, "A man walking.", [], [], "val/a.ogg"⟩

/-- A second concrete record. -/
def sampleRecB : LocalizedNarrative :=
  ⟨"coco_val", "137577", 94, "A dog running.", [], [], "val/b.ogg"⟩

/-- A concrete record of a rewritten-path family whose stored
voice_recording does not match the pattern. -/
def sampleRecBad : LocalizedNarrative :=
  ⟨"ADE20k", "930", 123, "A room.", [], [], "nomatch"⟩

/-- A concrete record with an empty timed_caption. -/
def sampleRecEmptyTC : LocalizedNarrative :=
  ⟨"coco_val", "137578", 95, "A cat.", [], [[]], "val/c.ogg"⟩

/-- A concrete filesystem: only the single coco_val shard is present,
under local root /d, holding two decoded records. -/
def demoFS : String → Option (List LocalizedNarrative) :=
  fun p =>
    if p = "/d/coco_val_localized_narratives.jsonl" then some [sampleRecA, sampleRecB]
    else none

/-- A concrete filesystem for the subset claim: of the four coco_train
shards only the third is present. -/
def demoFSPartial : String → Option (List LocalizedNarrative) :=
  fun p =>
    if p = "/d/coco_train_localized_narratives-00002-of-00004.jsonl" then
      some [sampleRecA]
    else none

/-- If the limit is already unreachable (at or below the running count,
so the equality test can never fire) or beyond the end of the file, the
line loop reads and yields every line and does not stop. -/
theorem readLines_noStop (maxN : Int) (lines : List LocalizedNarrative) :
    ∀ (count : Int), (maxN ≤ count ∨ count + lines.length < maxN) →
    readLines maxN count lines = ⟨lines, count + lines.length, false, []⟩ := by
  induction lines with
  | nil => intro count h; simp [readLines]
  | cons l rest ih =>
    intro count h
    simp only [List.length_cons] at h ⊢
    push_cast at h ⊢
    have hne : ¬(count + 1 = maxN) := by omega
    simp only [readLines, if_neg hne]
    rw [ih (count + 1) (by omega)]
    simp only [ReadResult.mk.injEq, true_and, and_true]
    ring

/-- If the limit lies strictly beyond the running count but within the
file, the line loop yields exactly the lines up to the limit, stops,
and leaves the rest of the file unread. -/
theorem readLines_stop (maxN : Int) (lines : List LocalizedNarrative) :
    ∀ (count : Int), count < maxN → maxN ≤ count + lines.length →
    readLines maxN count lines =
      ⟨lines.take (maxN - count).toNat, maxN, true,
       lines.drop (maxN - count).toNat⟩ := by
  induction lines with
  | nil =>
    intro count h1 h2
    simp only [List.length_nil, Nat.cast_zero, add_zero] at h2
    omega
  | cons l rest ih =>
    intro count h1 h2
    simp only [List.length_cons] at h2
    push_cast at h2
    by_cases he : count + 1 = maxN
    · have ht : (maxN - count).toNat = 1 := by omega
      simp only [readLines, if_pos he, ht]
      simp [he]
    · have h1x : count + 1 < maxN := by omega
      simp only [readLines, if_neg he]
      rw [ih (count + 1) h1x (by omega)]
      have ht : (maxN - count).toNat = (maxN - (count + 1)).toNat + 1 := by omega
      rw [ht]
      simp [List.take_succ_cons, List.drop_succ_cons]

/-- The contents of the present files of fn :: rest: an absent head
contributes nothing. -/
theorem presentFiles_cons_none (root : String)
    (fs : String → Option (List LocalizedNarrative)) (fn : String)
    (rest : List String) (h : fs (_local_file root fn) = none) :
    presentFiles root fs (fn :: rest) = presentFiles root fs rest := by
  simp [presentFiles, List.filterMap_cons, h]

/-- The contents of the present files of fn :: rest: a present head
contributes its lines first. -/
theorem presentFiles_cons_some (root : String)
    (fs : String → Option (List LocalizedNarrative)) (fn : String)
    (rest : List String) (lines : List LocalizedNarrative)
    (h : fs (_local_file root fn) = some lines) :
    presentFiles root fs (fn :: rest) = lines :: presentFiles root fs rest := by
  simp [presentFiles, List.filterMap_cons, h]

/-- If the limit is unreachable (at or below the starting count, or
beyond the total number of present lines), the file loop existence-
checks every registry file in order, opens exactly the present ones,
yields every present line in file-then-line order, and leaves nothing
unread. -/
theorem loadLoop_noStop (root : String)
    (fs : String → Option (List LocalizedNarrative)) (maxN : Int)
    (files : List String) :
    ∀ (count : Int),
    (maxN ≤ count ∨ count + (presentFiles root fs files).flatten.length < maxN) →
    loadLoop root fs maxN count files =
      ⟨fullScanEvents root fs files, (presentFiles root fs files).flatten, []⟩ := by
  induction files with
  | nil => intro count h; simp [loadLoop, fullScanEvents, presentFiles]
  | cons fn rest ih =>
    intro count h
    rcases hfs : fs (_local_file root fn) with _ | lines
    · rw [presentFiles_cons_none root fs fn rest hfs] at h
      simp only [loadLoop, hfs, fullScanEvents, presentFiles_cons_none root fs fn rest hfs]
      rw [ih count h]
    · rw [presentFiles_cons_some root fs fn rest lines hfs] at h
      simp only [List.flatten_cons, List.length_append] at h
      push_cast at h
      have hline : maxN ≤ count ∨ count + lines.length < maxN := by
        rcases h with h | h
        · exact Or.inl h
        · right; omega
      have hnext : maxN ≤ count + lines.length ∨
          count + lines.length + (presentFiles root fs rest).flatten.length < maxN := by
        rcases h with h | h
        · left; omega
        · right; omega
      simp only [loadLoop, hfs]
      rw [readLines_noStop maxN lines count hline, ih (count + lines.length) hnext]
      simp [fullScanEvents, hfs, presentFiles_cons_some root fs fn rest lines hfs]

/-- If the limit lies strictly beyond the starting count but within
the total present lines, the file loop yields exactly the lines up to
the limit, in file-then-line order, and everything after the limit
line is left unread (the rest of the file it stopped in and the whole
contents of the present files it never reached). -/
theorem loadLoop_stop (root : String)
    (fs : String → Option (List LocalizedNarrative)) (maxN : Int)
    (files : List String) :
    ∀ (count : Int), count < maxN →
    maxN ≤ count + (presentFiles root fs files).flatten.length →
    (loadLoop root fs maxN count files).emitted =
      (presentFiles root fs files).flatten.take (maxN - count).toNat ∧
    (loadLoop root fs maxN count files).unread.flatten =
      (presentFiles root fs files).flatten.drop (maxN - count).toNat := by
  induction files with
  | nil =>
    intro count h1 h2
    simp only [presentFiles, List.filterMap_nil, List.flatten_nil, List.length_nil,
      Nat.cast_zero, add_zero] at h2
    omega
  | cons fn rest ih =>
    intro count h1 h2
    rcases hfs : fs (_local_file root fn) with _ | lines
    · rw [presentFiles_cons_none root fs fn rest hfs] at h2 ⊢
      simp only [loadLoop, hfs]
      exact ih count h1 h2
    · rw [presentFiles_cons_some root fs fn rest lines hfs] at h2 ⊢
      simp only [List.flatten_cons, List.length_append] at h2
      push_cast at h2
      simp only [loadLoop, hfs, List.flatten_cons]
      by_cases hstop : maxN ≤ count + lines.length
      · rw [readLines_stop maxN lines count h1 hstop]
        have hz : (maxN - count).toNat - lines.length = 0 := by omega
        constructor
        · rw [List.take_append_eq_append_take, hz]
          simp
        · rw [List.drop_append_eq_append_drop, hz]
          simp [presentFiles]
      · push_neg at hstop
        rw [readLines_noStop maxN lines count (Or.inr hstop)]
        obtain ⟨ihe, ihu⟩ := ih (count + lines.length) hstop (by omega)
        have hge : lines.length ≤ (maxN - count).toNat := by omega
        have heq : (maxN - (count + lines.length)).toNat =
            (maxN - count).toNat - lines.length := by omega
        constructor
        · show lines ++ (loadLoop root fs maxN (count + lines.length) rest).emitted = _
          rw [ihe, List.take_append_eq_append_take, List.take_of_length_le hge, heq]
        · show (loadLoop root fs maxN (count + lines.length) rest).unread.flatten = _
          rw [ihu, List.drop_append_eq_append_drop,
            List.drop_eq_nil_of_le hge, heq]
          simp

/-- _download_one_file never removes a file: any path present before
is present after. -/
theorem _download_one_file_mono (root : String) (present : String → Bool)
    (fn q : String) (h : present q = true) :
    (_download_one_file root present fn).2 q = true := by
  simp only [_download_one_file]
  split
  · simpa
  · simp only
    split
    · rfl
    · simpa

/-- After _download_one_file, its own file is present (it either
already was, or was just downloaded). -/
theorem _download_one_file_self (root : String) (present : String → Bool)
    (fn : String) :
    (_download_one_file root present fn).2 (_local_file root fn) = true := by
  simp only [_download_one_file]
  split
  · simpa
  · simp

/-- The download loop never removes a file. -/
theorem downloadFiles_mono (root : String) (files : List String) :
    ∀ (present : String → Bool) (q : String), present q = true →
    (downloadFiles root present files).2 q = true := by
  induction files with
  | nil => intro present q h; simpa [downloadFiles]
  | cons fn rest ih =>
    intro present q h
    simp only [downloadFiles]
    exact ih _ q (_download_one_file_mono root present fn q h)

/-- After the download loop, every file of the batch is present. -/
theorem downloadFiles_all_present (root : String) (files : List String) :
    ∀ (present : String → Bool), ∀ fn ∈ files,
    (downloadFiles root present files).2 (_local_file root fn) = true := by
  induction files with
  | nil => simp
  | cons f rest ih =>
    intro present fn hmem
    simp only [downloadFiles]
    rcases List.mem_cons.mp hmem with h | h
    · subst h
      exact downloadFiles_mono root rest _ _ (_download_one_file_self root present fn)
    · exact ih _ fn h

/-- If every file of the batch is already present, the download loop
only performs the existence checks, in order: no download events, and
the filesystem is unchanged. -/
theorem downloadFiles_no_download (root : String) (files : List String) :
    ∀ (present : String → Bool),
    (∀ fn ∈ files, present (_local_file root fn) = true) →
    downloadFiles root present files =
      (files.map fun fn => TraceEvent.existsCheck (_local_file root fn), present) := by
  induction files with
  | nil => intro present _; simp [downloadFiles]
  | cons f rest ih =>
    intro present h
    have hf : present (_local_file root f) = true := h f (by simp)
    simp only [downloadFiles, _download_one_file, hf, if_pos]
    rw [ih present fun fn hm => h fn (by simp [hm])]
    simp

/-- Claim C1: for a LocalizedNarrative of a rewritten-path family
(dataset_id matching the family markers), voice_recording_url resolves
the stored voice_recording val/coco_val_000137576_93.jpg with
annotator_id 93 to the recordings base URL followed by / and
val/val_0000000000137576_93.ogg: the split id comes from the first
path component, the numeric image id is zero-padded to 16 digits, the
original extension is discarded, and the trailing numeric component is
replaced by annotator_id. -/
theorem c1_rewrite_resolution (d img cap : String)
    (tc : List TimedUtterance) (tr : List (List TimedPoint))
    (h : hasRewriteMarker d = true) :
    voice_recording_url ⟨d, img, 93, cap, tc, tr, "val/coco_val_000137576_93.jpg"⟩ =
      .ok (_RECORDINGS_ROOT_URL ++ "/" ++ "val/val_0000000000137576_93.ogg") := by
  simp only [voice_recording_url, h]
  rfl

/-- Witness for C1 at a concrete rewritten-path record. -/
theorem c1_rewrite_resolution_witness :
    hasRewriteMarker "Flickr30K" = true ∧
    voice_recording_url
        ⟨"Flickr30K", "137576", 93, "caption", [], [], "val/coco_val_000137576_93.jpg"⟩ =
      .ok (_RECORDINGS_ROOT_URL ++ "/" ++ "val/val_0000000000137576_93.ogg") :=
  ⟨by rfl, c1_rewrite_resolution "Flickr30K" "137576" "caption" [] [] (by rfl)⟩

/-- Claim C8: for a LocalizedNarrative whose dataset_id contains no
rewritten-path family marker, voice_recording_url is exactly the
recordings base URL followed by / and the stored voice_recording,
unchanged. -/
theorem c8_default_family_url (r : LocalizedNarrative)
    (h : hasRewriteMarker r.dataset_id = false) :
    voice_recording_url r = .ok (_RECORDINGS_ROOT_URL ++ "/" ++ r.voice_recording) := by
  simp [voice_recording_url, h]

/-- Witness for C8 at a concrete default-family record. -/
theorem c8_default_family_url_witness :
    hasRewriteMarker sampleRecA.dataset_id = false ∧
    voice_recording_url sampleRecA =
      .ok (_RECORDINGS_ROOT_URL ++ "/" ++ sampleRecA.voice_recording) :=
  ⟨by rfl, c8_default_family_url sampleRecA (by rfl)⟩

/-- Claim C4: for a rewritten-path-family record whose stored
voice_recording does not match the pattern (the regex search finds no
match), voice_recording_url fails with MalformedRecordingPath; for a
default-family record no such error is ever raised and the stored
value is used unchanged. -/
theorem c4_malformed_recording_path (r s : LocalizedNarrative)
    (hr : hasRewriteMarker r.dataset_id = true)
    (hm : pySearch r.voice_recording.data = none)
    (hs : hasRewriteMarker s.dataset_id = false) :
    voice_recording_url r = .error .malformedRecordingPath ∧
    voice_recording_url s = .ok (_RECORDINGS_ROOT_URL ++ "/" ++ s.voice_recording) := by
  constructor
  · simp [voice_recording_url, hr, hm]
  · simp [voice_recording_url, hs]

/-- Witness for C4 at concrete records: a rewritten-path record with a
non-matching stored path, and a default-family record. -/
theorem c4_malformed_recording_path_witness :
    hasRewriteMarker sampleRecBad.dataset_id = true ∧
    pySearch sampleRecBad.voice_recording.data = none ∧
    hasRewriteMarker sampleRecA.dataset_id = false ∧
    voice_recording_url sampleRecBad = .error .malformedRecordingPath ∧
    voice_recording_url sampleRecA =
      .ok (_RECORDINGS_ROOT_URL ++ "/" ++ sampleRecA.voice_recording) := by
  have h := c4_malformed_recording_path sampleRecBad sampleRecA (by rfl) (by rfl) (by rfl)
  exact ⟨by rfl, by rfl, by rfl, h.1, h.2⟩

/-- Claim C10: the textual representation unconditionally indexes the
first timed_caption element and the first point of the first trace, so
it fails with an index error whenever timed_caption is empty, traces
is empty, or the first trace is empty. -/
theorem c10_repr_index_error (r : LocalizedNarrative)
    (h : r.timed_caption = [] ∨ r.traces = [] ∨ r.traces.head? = some []) :
    lnRepr r = .error .indexError := by
  rcases h with h | h | h
  · simp [lnRepr, h]
  · rcases htc : r.timed_caption with _ | ⟨u, us⟩
    · simp [lnRepr, htc]
    · simp [lnRepr, htc, h]
  · rcases htr : r.traces with _ | ⟨t0, ts⟩
    · rw [htr] at h; simp at h
    · rw [htr] at h
      simp only [List.head?_cons, Option.some.injEq] at h
      subst h
      rcases htc : r.timed_caption with _ | ⟨u, us⟩
      · simp [lnRepr, htc]
      · simp [lnRepr, htc, htr]

/-- Witness for C10 at a concrete record whose first trace is empty. -/
theorem c10_repr_index_error_witness :
    (sampleRecEmptyTC.timed_caption = [] ∨ sampleRecEmptyTC.traces = [] ∨
      sampleRecEmptyTC.traces.head? = some []) ∧
    lnRepr sampleRecEmptyTC = .error .indexError :=
  ⟨Or.inr (Or.inr rfl), c10_repr_index_error sampleRecEmptyTC (Or.inr (Or.inr rfl))⟩

/-- Claim C5: for every key in the registry, _expected_files returns a
non-empty file list; the function is pure and deterministic (in this
embedding it is a mathematical function, so the same key always yields
the same list and no side effect is possible). -/
theorem c5_expected_files_nonempty (k : String) (files : List String)
    (h : _expected_files k = .ok files) :
    files ≠ [] ∧ _expected_files k = .ok files := by
  refine ⟨?_, h⟩
  unfold _expected_files at h
  rcases hl : lookupRegistry k with _ | fs
  · rw [hl] at h; exact absurd h (by simp)
  · rw [hl] at h
    have hfs : fs = files := by
      simpa using h
    subst hfs
    unfold lookupRegistry at hl
    rcases hf : _ANNOTATION_FILES.find? fun e => e.1 == k with _ | e
    · rw [hf] at hl; simp at hl
    · rw [hf] at hl
      simp at hl
      have hmem : e ∈ _ANNOTATION_FILES := List.mem_of_find?_eq_some hf
      have hall : ∀ x ∈ _ANNOTATION_FILES, x.2 ≠ ([] : List String) := by decide
      rw [← hl]
      exact hall e hmem

/-- Witness for C5 at a concrete registry key. -/
theorem c5_expected_files_nonempty_witness :
    _expected_files "coco_val" = .ok ["coco_val_localized_narratives.jsonl"] ∧
    ["coco_val_localized_narratives.jsonl"] ≠ ([] : List String) :=
  ⟨by rfl,
   (c5_expected_files_nonempty "coco_val" ["coco_val_localized_narratives.jsonl"]
     (by rfl)).1⟩

/-- Counterexample to claim C3 as stated: for the unknown key "bogus",
download_annotations does raise UnknownDatasetKind, but its event
trace already contains the creation of the local root directory — the
source calls os.makedirs before iterating _expected_files, so
directory creation (an I/O side effect the claim excludes) happens
before the error. -/
theorem c3_counterexample :
    (download_annotations "/data" (fun _ => false) "bogus").err =
        some LoaderError.unknownDatasetKind ∧
    (download_annotations "/data" (fun _ => false) "bogus").events =
        [TraceEvent.makedirs "/data"] := by
  constructor <;> rfl

/-- Claim C3 as amended: for every key not in the registry, both
operations fail with UnknownDatasetKind; load_annotations performs no
I/O at all before the error, and download_annotations performs no
existence check, file read, network access or download before the
error — but it does create the local root directory first, so its
trace is exactly the makedirs event. -/
theorem c3_unknown_key (root key : String) (present : String → Bool)
    (fs : String → Option (List LocalizedNarrative))
    (h : lookupRegistry key = none) :
    (download_annotations root present key).err = some .unknownDatasetKind ∧
    (download_annotations root present key).events = [TraceEvent.makedirs root] ∧
    (download_annotations root present key).present = present ∧
    ∀ maxN, load_annotations root fs key maxN = .error .unknownDatasetKind := by
  refine ⟨?_, ?_, ?_, ?_⟩ <;> simp [download_annotations, load_annotations, h]

/-- Witness for the amended C3 at the concrete unknown key "bogus". -/
theorem c3_unknown_key_witness :
    lookupRegistry "bogus" = none ∧
    (download_annotations "/data" (fun _ => false) "bogus").err =
        some LoaderError.unknownDatasetKind ∧
    load_annotations "/d" demoFS "bogus" 5 = .error .unknownDatasetKind := by
  have h := c3_unknown_key "/data" "bogus" (fun _ => false) demoFS (by rfl)
  exact ⟨by rfl, h.1, by
    have := c3_unknown_key "/d" "bogus" (fun _ => false) demoFS (by rfl)
    exact this.2.2.2 5⟩

/-- Claim C7: fetching is idempotent presence-wise.  For a known key,
after a first download_annotations call (which always leaves every
expected file present), a second call performs zero downloads: its
trace is exactly the makedirs event followed by one existence check
per registry file, with no download event and no change to the
filesystem — a present file is never re-downloaded or re-verified. -/
theorem c7_download_idempotent (root key : String) (present : String → Bool)
    (files : List String) (h : lookupRegistry key = some files) :
    (download_annotations root present key).err = none ∧
    (download_annotations root
        (download_annotations root present key).present key).events =
      TraceEvent.makedirs root ::
        files.map (fun fn => TraceEvent.existsCheck (_local_file root fn)) ∧
    (download_annotations root
        (download_annotations root present key).present key).present =
      (download_annotations root present key).present ∧
    (download_annotations root
        (download_annotations root present key).present key).err = none := by
  have hall : ∀ fn ∈ files,
      (downloadFiles root present files).2 (_local_file root fn) = true :=
    downloadFiles_all_present root files present
  simp only [download_annotations, h]
  rw [downloadFiles_no_download root files _ hall]
  simp

/-- Witness for C7 at a concrete key and an initially empty local
directory. -/
theorem c7_download_idempotent_witness :
    lookupRegistry "flickr30k_test" = some ["flickr30k_test_localized_narratives.jsonl"] ∧
    (download_annotations "/data"
        (download_annotations "/data" (fun _ => false) "flickr30k_test").present
        "flickr30k_test").events =
      TraceEvent.makedirs "/data" ::
        ["flickr30k_test_localized_narratives.jsonl"].map
          (fun fn => TraceEvent.existsCheck (_local_file "/data" fn)) :=
  ⟨by rfl,
   (c7_download_idempotent "/data" "flickr30k_test" (fun _ => false)
     ["flickr30k_test_localized_narratives.jsonl"] (by rfl)).2.1⟩

/-- Claim C2: for a known key, if the present local files together
hold more than N lines and N >= 1, load_annotations with
max_num_annotations = N yields exactly the first N records in registry
file order and within-file line order, and reads nothing past the
N-th record: the unread remainder is exactly everything after it. -/
theorem c2_max_annotations (root key : String)
    (fs : String → Option (List LocalizedNarrative)) (maxN : Int)
    (files : List String) (h : lookupRegistry key = some files)
    (h1 : 1 ≤ maxN)
    (h2 : maxN < ((presentFiles root fs files).flatten.length : Int)) :
    ∃ r : LoadResult,
      load_annotations root fs key maxN = .ok r ∧
      r.emitted = (presentFiles root fs files).flatten.take maxN.toNat ∧
      r.emitted.length = maxN.toNat ∧
      r.unread.flatten = (presentFiles root fs files).flatten.drop maxN.toNat := by
  have h0 : (0 : Int) < maxN := by omega
  have hle : maxN ≤ 0 + ((presentFiles root fs files).flatten.length : Int) := by omega
  obtain ⟨he, hu⟩ := loadLoop_stop root fs maxN files 0 h0 hle
  rw [sub_zero] at he hu
  refine ⟨loadLoop root fs maxN 0 files, by simp [load_annotations, h], he, ?_, hu⟩
  have hlen : maxN.toNat ≤ (presentFiles root fs files).flatten.length := by omega
  rw [he, List.length_take]
  exact min_eq_left hlen

/-- Witness for C2: a directory holding the single coco_val shard with
two records, loaded with limit 1. -/
theorem c2_max_annotations_witness :
    lookupRegistry "coco_val" = some ["coco_val_localized_narratives.jsonl"] ∧
    (1 : Int) ≤ 1 ∧
    (1 : Int) <
      ((presentFiles "/d" demoFS
        ["coco_val_localized_narratives.jsonl"]).flatten.length : Int) ∧
    ∃ r : LoadResult,
      load_annotations "/d" demoFS "coco_val" 1 = .ok r ∧
      r.emitted = (presentFiles "/d" demoFS
        ["coco_val_localized_narratives.jsonl"]).flatten.take (1 : Int).toNat ∧
      r.emitted.length = (1 : Int).toNat ∧
      r.unread.flatten = (presentFiles "/d" demoFS
        ["coco_val_localized_narratives.jsonl"]).flatten.drop (1 : Int).toNat :=
  ⟨by rfl, le_refl 1, by decide,
   c2_max_annotations "/d" "coco_val" demoFS 1
     ["coco_val_localized_narratives.jsonl"] (by rfl) (le_refl 1) (by decide)⟩

/-- Claim C6: for a known key and a directory holding any subset of
the expected files, load_annotations raises no error, visits the
registry files in order (existence-checking each, silently skipping
the absent ones, opening the present ones), and yields exactly the
records of the present files, in registry order. -/
theorem c6_partial_directory (root key : String)
    (fs : String → Option (List LocalizedNarrative)) (maxN : Int)
    (files : List String) (h : lookupRegistry key = some files)
    (h2 : ((presentFiles root fs files).flatten.length : Int) < maxN) :
    load_annotations root fs key maxN =
      .ok ⟨fullScanEvents root fs files, (presentFiles root fs files).flatten, []⟩ := by
  simp only [load_annotations, h]
  rw [loadLoop_noStop root fs maxN files 0 (Or.inr (by omega))]

/-- Witness for C6: of the four coco_train shards only the third is
present; loading with the source's default limit yields exactly its
records, with no error and no event for the absent shards beyond the
existence check. -/
theorem c6_partial_directory_witness :
    lookupRegistry "coco_train" = some [
      "coco_train_localized_narratives-00000-of-00004.jsonl",
      "coco_train_localized_narratives-00001-of-00004.jsonl",
      "coco_train_localized_narratives-00002-of-00004.jsonl",
      "coco_train_localized_narratives-00003-of-00004.jsonl"] ∧
    ((presentFiles "/d" demoFSPartial [
      "coco_train_localized_narratives-00000-of-00004.jsonl",
      "coco_train_localized_narratives-00001-of-00004.jsonl",
      "coco_train_localized_narratives-00002-of-00004.jsonl",
      "coco_train_localized_narratives-00003-of-00004.jsonl"]).flatten.length : Int) <
      defaultMaxNumAnnotations ∧
    load_annotations "/d" demoFSPartial "coco_train" defaultMaxNumAnnotations =
      .ok ⟨fullScanEvents "/d" demoFSPartial [
            "coco_train_localized_narratives-00000-of-00004.jsonl",
            "coco_train_localized_narratives-00001-of-00004.jsonl",
            "coco_train_localized_narratives-00002-of-00004.jsonl",
            "coco_train_localized_narratives-00003-of-00004.jsonl"],
          (presentFiles "/d" demoFSPartial [
            "coco_train_localized_narratives-00000-of-00004.jsonl",
            "coco_train_localized_narratives-00001-of-00004.jsonl",
            "coco_train_localized_narratives-00002-of-00004.jsonl",
            "coco_train_localized_narratives-00003-of-00004.jsonl"]).flatten, []⟩ :=
  ⟨by rfl, by decide,
   c6_partial_directory "/d" "coco_train" demoFSPartial defaultMaxNumAnnotations _
     (by rfl) (by decide)⟩

/-- Claim C9: because the limit check compares the running count for
equality with max_num_annotations only after a record has been
yielded, a limit of 0 or any negative value never fires: the loop
yields every record of every present file instead of zero records. -/
theorem c9_nonpositive_max (root key : String)
    (fs : String → Option (List LocalizedNarrative)) (maxN : Int)
    (files : List String) (h : lookupRegistry key = some files)
    (hm : maxN ≤ 0) :
    load_annotations root fs key maxN =
      .ok ⟨fullScanEvents root fs files, (presentFiles root fs files).flatten, []⟩ := by
  simp only [load_annotations, h]
  rw [loadLoop_noStop root fs maxN files 0 (Or.inl (by omega))]

/-- Witness for C9: loading the two-record coco_val directory with
max_num_annotations = 0 yields both records, not zero. -/
theorem c9_nonpositive_max_witness :
    lookupRegistry "coco_val" = some ["coco_val_localized_narratives.jsonl"] ∧
    (0 : Int) ≤ 0 ∧
    load_annotations "/d" demoFS "coco_val" 0 =
      .ok ⟨fullScanEvents "/d" demoFS ["coco_val_localized_narratives.jsonl"],
           (presentFiles "/d" demoFS ["coco_val_localized_narratives.jsonl"]).flatten,
           []⟩ ∧
    (presentFiles "/d" demoFS ["coco_val_localized_narratives.jsonl"]).flatten.length = 2 :=
  ⟨by rfl, le_refl 0,
   c9_nonpositive_max "/d" "coco_val" demoFS 0
     ["coco_val_localized_narratives.jsonl"] (by rfl) (le_refl 0),
   by rfl⟩
